import Mathlib

/-!
Shallow embedding of the osgEarth ArcGIS plugin
(`src/osgPlugins/arcgis/ReaderWriterArcGIS.cpp`).

C++ `double` values are modelled as exact rationals (ℚ); C++ strings are
Lean `String`s. The surrounding osgEarth host types (`GeoExtent`,
`Profile`, `Registry`, `HTTPClient`) and the plugin's `MapService` helper
are declared outside the provided source tree; the data they carry is
modelled from the specification's data model (§3) where the plugin code
reads it. All plugin logic (constructor, `initialize`, `createImage`,
`createHeightField`, `getPixelsPerTile`, `getExtension`) is translated
directly from the source.
-/

/-- Geographic extent `(xmin, ymin, xmax, ymax)`: the host `GeoExtent`
value as described by the spec data model (the `TileAddress` extent). -/
structure GeoExtent where
  xmin : ℚ
  ymin : ℚ
  xmax : ℚ
  ymax : ℚ
deriving DecidableEq

/-- `GeoExtent::width()`: horizontal size of the extent. -/
def GeoExtent.width (e : GeoExtent) : ℚ := e.xmax - e.xmin

/-- `GeoExtent::height()`: vertical size of the extent. -/
def GeoExtent.height (e : GeoExtent) : ℚ := e.ymax - e.ymin

/-- The host `Profile` object as the plugin produces it.  The three
constructors record the three ways `ArcGISSource::initialize` obtains a
profile: `Profile::create(profile_str)` from a configured string,
`Profile::create(srs, xmin, ymin, xmax, ymax, tilesX, tilesY)` built from
service data, and `Registry::instance()->getGlobalGeodeticProfile()`. -/
inductive HostProfile where
  | named (s : String)
  | custom (srs : String) (extent : GeoExtent) (tilesX tilesY : ℕ)
  | globalGeodetic
deriving DecidableEq

/-- A tile key: level of detail, tile x (column), tile y (row), and
geographic extent, exactly the fields `createImage` reads from the host
`TileKey` (`getLevelOfDetail`, `getTileXY`, `getGeoExtent`). -/
structure TileKey where
  level : ℕ
  tile_x : ℕ
  tile_y : ℕ
  extent : GeoExtent

/-- An opaque decoded image (`osg::Image*`); only identity matters here. -/
structure Image where
  tag : ℕ
deriving DecidableEq

/-- An opaque height field (`osg::HeightField*`). -/
structure HeightField where
  tag : ℕ
deriving DecidableEq

/-- The host progress/cancellation handle (`ProgressCallback*`). -/
structure ProgressCallback where
  canceled : Bool
deriving DecidableEq

/-- Modelled from the spec: the profile data reported by the remote
service (`MapService::getProfile()`, declared in `MapService.h` which is
not under `src/`).  Per spec §3 a service profile carries a spatial
reference, a geographic extent and the level-0 tile grid; these are the
fields `ArcGISSource::initialize` reads (`getSRS`, `getExtent`,
`getNumTiles(0, tilesX, tilesY)`). -/
structure SvcProfile where
  srs : String
  extent : GeoExtent
  tilesX : ℕ
  tilesY : ℕ
deriving DecidableEq

/-- Modelled from the spec: the tile metadata of the service
(`MapService::getTileInfo()`): declared image format and tile pixel
size (spec §3 ServiceDescriptor fields). -/
structure TileInfo where
  format : String
  tileSize : ℕ
deriving DecidableEq

/-- Modelled from the spec: the `MapService` descriptor
(`MapService.h`/`MapService.cpp` are not under `src/`).  Spec §3: base
URL metadata yields a tiling-capability flag, an optional spatial
profile, and tile info.  `inited` records whether `MapService::init`
succeeded (spec §4.1 step 1 / §7 InitializationFailure). -/
structure MapService where
  inited : Bool
  tiled : Bool
  profile : Option SvcProfile
  tileInfo : TileInfo
deriving DecidableEq

/-- Modelled from the spec: the state `MapService::init` leaves behind
when the metadata fetch fails (spec §7: the adapter remains constructible
but non-functional, "no valid addressing scheme could be determined"):
nothing was learned, so the descriptor keeps its default-constructed
values (not tiled, no profile, empty format, zero tile size). -/
def MapService.failedInit : MapService :=
  { inited := false, tiled := false, profile := none
    tileInfo := { format := "", tileSize := 0 } }

/-- The plugin configuration options (`osgDB::ReaderWriter::Options`
plugin data): the `PROPERTY_URL` ("url") and `PROPERTY_PROFILE`
("profile") entries read by the `ArcGISSource` constructor. -/
structure PluginOptions where
  url : Option String
  profile : Option String

/-- The `ArcGISSource` object: its member fields exactly as declared in
the source (`_url`, `_profile_str`, `_map`, `_layer`, `_format`,
`_map_service`). -/
structure ArcGISSource where
  url : String
  profile_str : String
  map : String
  layer : String
  format : String
  map_service : MapService
deriving DecidableEq

/-- The `ArcGISSource` constructor (source lines 42-71).  Member strings
default-construct empty; the options, when present, may supply `_url` and
`_profile_str`; `_layer` is defaulted to `"_alllayers"` and `_format` to
`"png"` when still empty (they always are); finally
`_map_service.init(_url)` queries the remote metadata, modelled by the
oracle `svcInit` giving the `MapService` state that the metadata fetch
for a given URL produces (on failure only a warning is logged). -/
def ArcGISSource.construct (options : Option PluginOptions)
    (svcInit : String → MapService) : ArcGISSource :=
  let url :=
    match options with
    | some o => match o.url with | some u => u | none => ""
    | none => ""
  let profile_str :=
    match options with
    | some o => match o.profile with | some p => p | none => ""
    | none => ""
  let layer := if ("" : String).isEmpty then "_alllayers" else ""
  let format := if ("" : String).isEmpty then "png" else ""
  { url := url, profile_str := profile_str, map := "", layer := layer,
    format := format, map_service := svcInit url }

/-- The square-expansion adjustment inside `ArcGISSource::initialize`
(source lines 93-107): if the extent is wider than tall, pad the y-range
by half the difference on each side; if taller than wide, pad the x-range
likewise; otherwise leave it alone. -/
def expandToSquare (oldEx : GeoExtent) : GeoExtent :=
  if oldEx.width > oldEx.height then
    let d := oldEx.width - oldEx.height
    { xmin := oldEx.xmin, ymin := oldEx.ymin - d / 2
      xmax := oldEx.xmax, ymax := oldEx.ymax + d / 2 }
  else if oldEx.width < oldEx.height then
    let d := oldEx.height - oldEx.width
    { xmin := oldEx.xmin - d / 2, ymin := oldEx.ymin
      xmax := oldEx.xmax + d / 2, ymax := oldEx.ymax }
  else oldEx

/-- `ArcGISSource::initialize` (source lines 74-117): resolve the profile
passed to `setProfile`.  A non-empty `_profile_str` wins; otherwise a
service-reported profile is used, square-expanded when the service is not
tiled; otherwise the global geodetic profile. -/
def ArcGISSource.initProfile (s : ArcGISSource) : HostProfile :=
  if s.profile_str.isEmpty = false then
    HostProfile.named s.profile_str
  else
    match s.map_service.profile with
    | some p =>
        if s.map_service.tiled = false then
          HostProfile.custom p.srs (expandToSquare p.extent) p.tilesX p.tilesY
        else
          HostProfile.custom p.srs p.extent p.tilesX p.tilesY
    | none => HostProfile.globalGeodetic

/-- `ArcGISSource::getPixelsPerTile` (source lines 120-123). -/
def ArcGISSource.getPixelsPerTile (s : ArcGISSource) : ℕ :=
  s.map_service.tileInfo.tileSize

/-- `ArcGISSource::getExtension` (source lines 176-179). -/
def ArcGISSource.getExtension (s : ArcGISSource) : String :=
  s.format

/-- ASCII `tolower` applied per character, as
`std::transform(f.begin(), f.end(), f.begin(), tolower)` does. -/
def charLower (c : Char) : Char :=
  if 'A' ≤ c ∧ c ≤ 'Z' then Char.ofNat (c.toNat + 32) else c

/-- Lowercase a string character by character (the `std::transform` call
in `createImage`, source line 137). -/
def strLower (s : String) : String := ⟨s.data.map charLower⟩

/-- The format normalization in `createImage` (source lines 136-139):
lowercase the declared format; if it is longer than three characters and
starts with "png", collapse it to exactly "png". -/
def normalizeFormat (f0 : String) : String :=
  let f := strLower f0
  if 3 < f.length ∧ f.take 3 = "png" then "png" else f

/-- Fuel-driven base-10 logarithm on ℕ: `log10fuel fuel n` is the number
of times `n` can be divided by 10 before dropping below 10, provided
`fuel` bounds `n`. -/
def log10fuel : ℕ → ℕ → ℕ
  | 0, _ => 0
  | fuel + 1, n => if n < 10 then 0 else log10fuel fuel (n / 10) + 1

/-- Largest `k` with `10 ^ k ≤ n` (for `n ≥ 1`). -/
def natLog10 (n : ℕ) : ℕ := log10fuel n n

/-- Fuel-driven base-10 ceiling logarithm on ℕ. -/
def clog10fuel : ℕ → ℕ → ℕ
  | 0, _ => 0
  | fuel + 1, n => if n ≤ 1 then 0 else clog10fuel fuel ((n + 9) / 10) + 1

/-- Smallest `k` with `n ≤ 10 ^ k`. -/
def natClog10 (n : ℕ) : ℕ := clog10fuel n n

/-- The decimal exponent of a nonzero rational `q`: the `e` with
`10 ^ e ≤ |q| < 10 ^ (e + 1)`, computed from the numerator and
denominator so that it evaluates by kernel reduction. -/
def ratExp10 (q : ℚ) : ℤ :=
  let a := q.num.natAbs
  let b := q.den
  if b ≤ a then (natLog10 (a / b) : ℤ) else -(natClog10 ((b + a - 1) / a) : ℤ)

/-- The 16-digit significand of a nonzero rational: `|q|` scaled into
`[10 ^ 15, 10 ^ 16]` and rounded to the nearest integer (the digits an
IOStreams insertion with `setprecision(16)` prints).  Implemented with
natural-number division: `round (c / b) = (2 * c + b) / (2 * b)`. -/
def sig16mant (q : ℚ) : ℕ :=
  let a := q.num.natAbs
  let b := q.den
  let e := ratExp10 q
  if e ≤ 15 then
    let c := a * 10 ^ (15 - e).toNat
    (2 * c + b) / (2 * b)
  else
    let bb := b * 10 ^ (e - 15).toNat
    (2 * a + bb) / (2 * bb)

/-- The exact rational value denoted by the 16-significant-digit decimal
that `setprecision(16)` output prints for `q` (doubles modelled as exact
rationals). -/
def fmt16Val (q : ℚ) : ℚ :=
  if q = 0 then 0
  else (if q < 0 then -1 else 1) * (sig16mant q : ℚ) * (10 : ℚ) ^ (ratExp10 q - 15)

/-- Drop trailing `'0'` characters (default-notation IOStreams output
suppresses trailing zeros of the fractional part). -/
def stripZeros (s : String) : String :=
  ⟨(s.data.reverse.dropWhile (· = '0')).reverse⟩

/-- Decimal rendering of a double by `operator<<` under
`std::setprecision(16)` and default float notation (`%.16g`): 16
significant digits, trailing zeros removed, fixed notation for decimal
exponents in `[-4, 16)` and scientific notation otherwise.  Doubles are
modelled as exact rationals. -/
def fmt16 (q : ℚ) : String :=
  if q = 0 then "0"
  else
    let sgn := if q < 0 then "-" else ""
    let n0 := sig16mant q
    let e0 := ratExp10 q
    let ne : ℕ × ℤ := if n0 = 10 ^ 16 then (10 ^ 15, e0 + 1) else (n0, e0)
    let ds := toString ne.1
    if 0 ≤ ne.2 ∧ ne.2 < 16 then
      let k := ne.2.toNat + 1
      let fp := stripZeros (ds.drop k)
      sgn ++ ds.take k ++ (if fp.isEmpty then "" else "." ++ fp)
    else if -4 ≤ ne.2 ∧ ne.2 < 0 then
      sgn ++ "0." ++ String.mk (List.replicate ((-ne.2).toNat - 1) '0') ++ stripZeros ds
    else
      let fp := stripZeros (ds.drop 1)
      let ea := ne.2.natAbs
      sgn ++ ds.take 1 ++ (if fp.isEmpty then "" else "." ++ fp) ++ "e" ++
        (if ne.2 < 0 then "-" else "+") ++
        (if ea < 10 then "0" ++ toString ea else toString ea)

/-- The URL `ArcGISSource::createImage` assembles in its stringstream
(source lines 129-160): tiled services use
`url/tile/level/row/column.format` (note `tile_y` — the row — precedes
`tile_x`); non-tiled services use the dynamic-export form, with the four
extent coordinates printed under `setprecision(16)` and, after
`&f=image`, a final `&.format` fragment. -/
def ArcGISSource.createImageURL (s : ArcGISSource) (key : TileKey) : String :=
  let f := normalizeFormat s.map_service.tileInfo.format
  if s.map_service.tiled then
    s.url ++ "/tile" ++ "/" ++ toString key.level ++ "/" ++ toString key.tile_y
      ++ "/" ++ toString key.tile_x ++ "." ++ f
  else
    let ex := key.extent
    s.url ++ "/export" ++ "?bbox=" ++ fmt16 ex.xmin ++ "," ++ fmt16 ex.ymin
      ++ "," ++ fmt16 ex.xmax ++ "," ++ fmt16 ex.ymax
      ++ "&format=" ++ f ++ "&size=256,256" ++ "&transparent=true"
      ++ "&f=image" ++ "&" ++ "." ++ f

/-- `ArcGISSource::createImage` (source lines 126-165): build the URL and
delegate to `HTTPClient::readImageFile`, modelled by the external fetch
collaborator `fetch` (returns `none` when the fetch or decode fails). -/
def ArcGISSource.createImage (s : ArcGISSource) (key : TileKey)
    (progress : ProgressCallback)
    (fetch : String → ProgressCallback → Option Image) : Option Image :=
  fetch (s.createImageURL key) progress

/-- `ArcGISSource::createHeightField` (source lines 168-173): not
implemented, always the null result. -/
def ArcGISSource.createHeightField (_s : ArcGISSource) (_key : TileKey)
    (_progress : ProgressCallback) : Option HeightField :=
  none

/-- State-passing form of `createImage`: the method body (source lines
126-165) assigns to no member field, so it returns its result together
with the unchanged object. -/
def ArcGISSource.createImageM (s : ArcGISSource) (key : TileKey)
    (progress : ProgressCallback)
    (fetch : String → ProgressCallback → Option Image) :
    Option Image × ArcGISSource :=
  (s.createImage key progress fetch, s)

/-- State-passing form of `createHeightField` (source lines 168-173): no
member field is assigned. -/
def ArcGISSource.createHeightFieldM (s : ArcGISSource) (key : TileKey)
    (progress : ProgressCallback) : Option HeightField × ArcGISSource :=
  (s.createHeightField key progress, s)

/-- State-passing form of `getPixelsPerTile` (a `const` method): no
member field is assigned. -/
def ArcGISSource.getPixelsPerTileM (s : ArcGISSource) : ℕ × ArcGISSource :=
  (s.getPixelsPerTile, s)

/-- State-passing form of `getExtension` (a `const` method): no member
field is assigned. -/
def ArcGISSource.getExtensionM (s : ArcGISSource) : String × ArcGISSource :=
  (s.getExtension, s)

/-- The dynamic-export URL template exactly as the specification words it
(§4.1): `base/export?bbox=xmin,ymin,xmax,ymax&format=format`
`&size=256,256&transparent=true&f=image`, with nothing after `f=image`.
This definition follows the spec, not the source, and exists to be
compared against `ArcGISSource.createImageURL`. -/
def specExportURL (s : ArcGISSource) (key : TileKey) : String :=
  let f := normalizeFormat s.map_service.tileInfo.format
  let ex := key.extent
  s.url ++ "/export" ++ "?bbox=" ++ fmt16 ex.xmin ++ "," ++ fmt16 ex.ymin
    ++ "," ++ fmt16 ex.xmax ++ "," ++ fmt16 ex.ymax
    ++ "&format=" ++ f ++ "&size=256,256" ++ "&transparent=true"
    ++ "&f=image"

/-- A service profile like the one a world-wide geodetic map service
reports: extent 360 wide by 180 tall with a 2 by 1 level-0 grid. -/
def exProf : SvcProfile :=
  { srs := "EPSG:4326", extent := ⟨-180, -90, 180, 90⟩, tilesX := 2, tilesY := 1 }

/-- A square service profile (used for the no-op adjustment cases). -/
def exProfSquare : SvcProfile :=
  { srs := "EPSG:4326", extent := ⟨0, 0, 10, 10⟩, tilesX := 1, tilesY := 1 }

/-- Metadata of a healthy dynamic-export (non-tiled) service. -/
def exSvcExport : MapService :=
  { inited := true, tiled := false, profile := some exProf
    tileInfo := { format := "PNG24", tileSize := 256 } }

/-- Metadata of a healthy tiled service declaring format PNG24. -/
def exSvcTiled : MapService :=
  { inited := true, tiled := true, profile := some exProf
    tileInfo := { format := "PNG24", tileSize := 256 } }

/-- Metadata of a healthy tiled service declaring format JPEG. -/
def exSvcJpeg : MapService :=
  { inited := true, tiled := true, profile := some exProf
    tileInfo := { format := "JPEG", tileSize := 512 } }

/-- Metadata of a healthy non-tiled service with a square extent. -/
def exSvcSquare : MapService :=
  { inited := true, tiled := false, profile := some exProfSquare
    tileInfo := { format := "PNG24", tileSize := 256 } }

/-- An adapter over the dynamic-export service. -/
def exSrcExport : ArcGISSource :=
  { url := "http://server/rest/MapServer", profile_str := "", map := ""
    layer := "_alllayers", format := "png", map_service := exSvcExport }

/-- An adapter over the tiled service. -/
def exSrcTiled : ArcGISSource :=
  { url := "http://server/rest/MapServer", profile_str := "", map := ""
    layer := "_alllayers", format := "png", map_service := exSvcTiled }

/-- An adapter over the square-extent non-tiled service. -/
def exSrcSquare : ArcGISSource :=
  { url := "http://server/rest/MapServer", profile_str := "", map := ""
    layer := "_alllayers", format := "png", map_service := exSvcSquare }

/-- An adapter with a configured profile override string. -/
def exSrcNamed : ArcGISSource :=
  { url := "http://server/rest/MapServer", profile_str := "global-geodetic", map := ""
    layer := "_alllayers", format := "png", map_service := exSvcExport }

/-- An adapter whose metadata initialization failed. -/
def exSrcFailed : ArcGISSource :=
  { url := "http://down/MapServer", profile_str := "", map := ""
    layer := "_alllayers", format := "png", map_service := MapService.failedInit }

/-- The plugin options used by the constructor examples. -/
def exOpts : PluginOptions :=
  { url := some "http://server/rest/MapServer", profile := none }

/-- A level-0 tile key with unit extent. -/
def exKey : TileKey := ⟨0, 0, 0, ⟨0, 0, 1, 1⟩⟩

/-- The tile key of the spec's tiled example: level 3, column 2, row 5. -/
def exKeyTile : TileKey := ⟨3, 2, 5, ⟨0, 0, 1, 1⟩⟩

/-- The tile key of the spec's export example: extent (-10, -5, 10, 5). -/
def exKeyBbox : TileKey := ⟨0, 0, 0, ⟨-10, -5, 10, 5⟩⟩

lemma log10fuel_pow_le : ∀ fuel n, 1 ≤ n → n ≤ fuel → 10 ^ log10fuel fuel n ≤ n := by
  intro fuel
  induction fuel with
  | zero => intro n h1 h2; omega
  | succ fuel ih =>
      intro n h1 h2
      by_cases h : n < 10
      · simp [log10fuel, h]; omega
      · have hd1 : 1 ≤ n / 10 := (Nat.one_le_div_iff (by norm_num)).2 (by omega)
        have hd2 : n / 10 ≤ fuel := by
          have := Nat.div_lt_self (show 0 < n by omega) (show 1 < 10 by norm_num)
          omega
        have := ih (n / 10) hd1 hd2
        simp only [log10fuel, if_neg h]
        calc 10 ^ (log10fuel fuel (n / 10) + 1)
            = 10 * 10 ^ (log10fuel fuel (n / 10)) := by ring
          _ ≤ 10 * (n / 10) := by omega
          _ ≤ n := by omega

lemma clog10fuel_le_pow : ∀ fuel n, n ≤ fuel → n ≤ 10 ^ clog10fuel fuel n := by
  intro fuel
  induction fuel with
  | zero => intro n h2; simp [clog10fuel, show n = 0 by omega]
  | succ fuel ih =>
      intro n h2
      by_cases h : n ≤ 1
      · simp [clog10fuel, h]
      · have hd2 : (n + 9) / 10 ≤ fuel := by omega
        have := ih ((n + 9) / 10) hd2
        simp only [clog10fuel, if_neg h]
        calc n ≤ 10 * ((n + 9) / 10) := by omega
          _ ≤ 10 * 10 ^ (clog10fuel fuel ((n + 9) / 10)) := by omega
          _ = 10 ^ (clog10fuel fuel ((n + 9) / 10) + 1) := by ring

lemma abs_rat_eq (q : ℚ) : |q| = (q.num.natAbs : ℚ) / (q.den : ℚ) := by
  calc |q| = |(q.num : ℚ) / (q.den : ℚ)| := by rw [Rat.num_div_den]
    _ = |(q.num : ℚ)| / (q.den : ℚ) := by
        rw [abs_div, abs_of_nonneg (show (0:ℚ) ≤ (q.den : ℚ) by positivity)]
    _ = (q.num.natAbs : ℚ) / (q.den : ℚ) := by
        rw [← Int.cast_abs, Int.abs_eq_natAbs, Int.cast_natCast]

lemma zpow_ratExp10_le (q : ℚ) (hq : q ≠ 0) : (10 : ℚ) ^ ratExp10 q ≤ |q| := by
  have ha : 1 ≤ q.num.natAbs := Int.natAbs_pos.2 (Rat.num_ne_zero.2 hq)
  have hb : 0 < q.den := q.den_pos
  rw [abs_rat_eq q]
  unfold ratExp10
  by_cases hba : q.den ≤ q.num.natAbs
  · simp only [hba, if_pos, zpow_natCast]
    have h1 : 10 ^ natLog10 (q.num.natAbs / q.den) ≤ q.num.natAbs / q.den :=
      log10fuel_pow_le _ _ ((Nat.one_le_div_iff hb).2 hba) le_rfl
    calc (10 : ℚ) ^ natLog10 (q.num.natAbs / q.den)
        = ((10 ^ natLog10 (q.num.natAbs / q.den) : ℕ) : ℚ) := by push_cast; ring
      _ ≤ ((q.num.natAbs / q.den : ℕ) : ℚ) := by exact_mod_cast h1
      _ ≤ (q.num.natAbs : ℚ) / (q.den : ℚ) := Nat.cast_div_le
  · simp only [hba, if_neg, if_false]
    rw [zpow_neg, zpow_natCast]
    push_neg at hba
    have hc : (q.den + q.num.natAbs - 1) / q.num.natAbs ≤
        10 ^ natClog10 ((q.den + q.num.natAbs - 1) / q.num.natAbs) :=
      clog10fuel_le_pow _ _ le_rfl
    have hbc : q.den ≤ q.num.natAbs * ((q.den + q.num.natAbs - 1) / q.num.natAbs) := by
      have e2 := Nat.div_add_mod (q.den + q.num.natAbs - 1) q.num.natAbs
      have e3 : (q.den + q.num.natAbs - 1) % q.num.natAbs < q.num.natAbs :=
        Nat.mod_lt _ (by omega)
      omega
    have hkey : (q.den : ℚ) ≤ (q.num.natAbs : ℚ) *
        10 ^ natClog10 ((q.den + q.num.natAbs - 1) / q.num.natAbs) := by
      calc (q.den : ℚ)
          ≤ ((q.num.natAbs * ((q.den + q.num.natAbs - 1) / q.num.natAbs) : ℕ) : ℚ) := by
            exact_mod_cast hbc
        _ ≤ ((q.num.natAbs * 10 ^ natClog10 ((q.den + q.num.natAbs - 1) / q.num.natAbs) : ℕ) : ℚ) := by
            exact_mod_cast Nat.mul_le_mul_left _ hc
        _ = (q.num.natAbs : ℚ) *
            10 ^ natClog10 ((q.den + q.num.natAbs - 1) / q.num.natAbs) := by push_cast; ring
    rw [inv_eq_one_div, div_le_div_iff₀ (by positivity) (by positivity)]
    linarith [hkey]

lemma round_natCast_div (N D : ℕ) (hD : 0 < D) :
    round ((N : ℚ) / D) = (((2 * N + D) / (2 * D) : ℕ) : ℤ) := by
  rw [round_eq]
  have h1 : (N : ℚ) / D + 1 / 2 = ((2 * N + D : ℕ) : ℚ) / ((2 * D : ℕ) : ℚ) := by
    have : ((D : ℚ)) ≠ 0 := by positivity
    push_cast
    field_simp
    ring
  rw [h1, ← Int.natCast_floor_eq_floor (by positivity), Nat.floor_div_eq_div]

lemma sig16mant_eq_round (q : ℚ) :
    ((sig16mant q : ℕ) : ℤ) = round (|q| * (10 : ℚ) ^ (15 - ratExp10 q)) := by
  have hb : 0 < q.den := q.den_pos
  simp only [sig16mant]
  by_cases he : ratExp10 q ≤ 15
  · simp only [he, if_true]
    have hpow : (10 : ℚ) ^ (15 - ratExp10 q) = ((10 ^ (15 - ratExp10 q).toNat : ℕ) : ℚ) := by
      conv_lhs => rw [show (15 - ratExp10 q) = (((15 - ratExp10 q).toNat : ℕ) : ℤ) from
        (Int.toNat_of_nonneg (by omega)).symm]
      rw [zpow_natCast]
      push_cast
      ring
    have harg : |q| * (10 : ℚ) ^ (15 - ratExp10 q) =
        ((q.num.natAbs * 10 ^ (15 - ratExp10 q).toNat : ℕ) : ℚ) / ((q.den : ℕ) : ℚ) := by
      rw [abs_rat_eq q, hpow]
      push_cast
      ring
    rw [harg, round_natCast_div _ _ hb]
  · simp only [he, if_false]
    push_neg at he
    have hpow : (10 : ℚ) ^ (15 - ratExp10 q) = (((10 ^ (ratExp10 q - 15).toNat : ℕ) : ℚ))⁻¹ := by
      have h0 : (15 - ratExp10 q) = -(ratExp10 q - 15) := by ring
      rw [h0, zpow_neg]
      conv_lhs => rw [show (ratExp10 q - 15) = (((ratExp10 q - 15).toNat : ℕ) : ℤ) from
        (Int.toNat_of_nonneg (by omega)).symm]
      rw [zpow_natCast]
      push_cast
      ring_nf
    have hpow0 : ((10 ^ (ratExp10 q - 15).toNat : ℕ) : ℚ) ≠ 0 := by positivity
    have harg : |q| * (10 : ℚ) ^ (15 - ratExp10 q) =
        ((q.num.natAbs : ℕ) : ℚ) / ((q.den * 10 ^ (ratExp10 q - 15).toNat : ℕ) : ℚ) := by
      rw [abs_rat_eq q, hpow]
      have hd : ((q.den : ℕ) : ℚ) ≠ 0 := by positivity
      push_cast
      field_simp
    rw [harg, round_natCast_div _ _ (by positivity)]

lemma fmt16Val_error (q : ℚ) (hq : q ≠ 0) :
    |fmt16Val q - q| ≤ |q| * ((10 : ℚ) ^ (-15 : ℤ) / 2) := by
  have hq10 : (10 : ℚ) ≠ 0 := by norm_num
  have hppos : (0 : ℚ) < (10 : ℚ) ^ (ratExp10 q - 15) := by positivity
  have h1 : ((sig16mant q : ℕ) : ℚ) =
      ((round (|q| * (10 : ℚ) ^ (15 - ratExp10 q)) : ℤ) : ℚ) := by
    exact_mod_cast sig16mant_eq_round q
  have hval : fmt16Val q = (if q < 0 then (-1 : ℚ) else 1) *
      ((round (|q| * (10 : ℚ) ^ (15 - ratExp10 q)) : ℤ) : ℚ) *
      (10 : ℚ) ^ (ratExp10 q - 15) := by
    simp only [fmt16Val, if_neg hq, h1]
  have hsq : |q| * (10 : ℚ) ^ (15 - ratExp10 q) * (10 : ℚ) ^ (ratExp10 q - 15) = |q| := by
    rw [mul_assoc, ← zpow_add₀ hq10]
    norm_num
  set s := |q| * (10 : ℚ) ^ (15 - ratExp10 q) with hs
  set P := (10 : ℚ) ^ (ratExp10 q - 15) with hP
  have hdiff : |fmt16Val q - q| = |((round s : ℤ) : ℚ) - s| * P := by
    by_cases h : q < 0
    · have habs : |q| = -q := abs_of_neg h
      have hsq2 : s * P = -q := by rw [hsq, habs]
      have : fmt16Val q - q = -((((round s : ℤ) : ℚ) - s) * P) := by
        rw [hval, if_pos h]
        linear_combination -hsq2
      rw [this, abs_neg, abs_mul, abs_of_pos hppos]
    · have habs : |q| = q := abs_of_nonneg (le_of_not_lt h)
      have hsq2 : s * P = q := by rw [hsq, habs]
      have : fmt16Val q - q = (((round s : ℤ) : ℚ) - s) * P := by
        rw [hval, if_neg h]
        linear_combination hsq2
      rw [this, abs_mul, abs_of_pos hppos]
  rw [hdiff]
  have hround : |((round s : ℤ) : ℚ) - s| ≤ 1 / 2 := by
    rw [abs_sub_comm]
    exact abs_sub_round s
  have hPsplit : P = (10 : ℚ) ^ ratExp10 q * (10 : ℚ) ^ (-15 : ℤ) := by
    rw [hP, sub_eq_add_neg, zpow_add₀ hq10]
  have hlow := zpow_ratExp10_le q hq
  have hpos15 : (0 : ℚ) < (10 : ℚ) ^ (-15 : ℤ) := by positivity
  calc |((round s : ℤ) : ℚ) - s| * P ≤ (1 / 2) * P := by
        exact mul_le_mul_of_nonneg_right hround (le_of_lt hppos)
    _ = (1 / 2) * ((10 : ℚ) ^ ratExp10 q * (10 : ℚ) ^ (-15 : ℤ)) := by rw [hPsplit]
    _ ≤ (1 / 2) * (|q| * (10 : ℚ) ^ (-15 : ℤ)) := by nlinarith
    _ = |q| * ((10 : ℚ) ^ (-15 : ℤ) / 2) := by ring

lemma expandToSquare_of_gt (ex : GeoExtent) (h : ex.height < ex.width) :
    expandToSquare ex =
      { xmin := ex.xmin, ymin := ex.ymin - (ex.width - ex.height) / 2
        xmax := ex.xmax, ymax := ex.ymax + (ex.width - ex.height) / 2 } := by
  unfold expandToSquare
  rw [if_pos h]

lemma expandToSquare_of_lt (ex : GeoExtent) (h : ex.width < ex.height) :
    expandToSquare ex =
      { xmin := ex.xmin - (ex.height - ex.width) / 2, ymin := ex.ymin
        xmax := ex.xmax + (ex.height - ex.width) / 2, ymax := ex.ymax } := by
  unfold expandToSquare
  rw [if_neg (asymm h), if_pos h]

lemma expandToSquare_width_eq_height (ex : GeoExtent) :
    (expandToSquare ex).width = (expandToSquare ex).height := by
  rcases lt_trichotomy ex.width ex.height with h | h | h
  · rw [expandToSquare_of_lt ex h]
    simp only [GeoExtent.width, GeoExtent.height] at *
    ring
  · unfold expandToSquare
    rw [h, if_neg (lt_irrefl _), if_neg (lt_irrefl _)]
    exact h
  · rw [expandToSquare_of_gt ex h]
    simp only [GeoExtent.width, GeoExtent.height] at *
    ring

lemma expandToSquare_of_eq (ex : GeoExtent) (h : ex.width = ex.height) :
    expandToSquare ex = ex := by
  unfold expandToSquare
  rw [h, if_neg (lt_irrefl _), if_neg (lt_irrefl _)]

lemma expandToSquare_idem (ex : GeoExtent) :
    expandToSquare (expandToSquare ex) = expandToSquare ex :=
  expandToSquare_of_eq _ (expandToSquare_width_eq_height ex)

lemma initProfile_nonTiled (s : ArcGISSource) (p : SvcProfile)
    (h1 : s.profile_str.isEmpty = true) (h2 : s.map_service.profile = some p)
    (h3 : s.map_service.tiled = false) :
    s.initProfile = HostProfile.custom p.srs (expandToSquare p.extent) p.tilesX p.tilesY := by
  simp [ArcGISSource.initProfile, h1, h2, h3]

lemma take3_append_png (t : String) : ("png" ++ t).take 3 = "png" := by
  rw [String.take_eq, String.data_append]
  show String.mk (List.take 3 ("png".data ++ t.data)) = "png"
  rw [List.take_left' (by rfl)]

lemma normalizeFormat_of_png (f0 t : String) (h : strLower f0 = "png" ++ t) :
    normalizeFormat f0 = "png" := by
  unfold normalizeFormat
  rw [h]
  rcases t with ⟨td⟩
  cases td with
  | nil => simp
  | cons c cs =>
      have hlen : 3 < ("png" ++ (⟨c :: cs⟩ : String)).length := by
        rw [String.length_append]
        have h1 : ("png" : String).length = 3 := rfl
        have h2 : (⟨c :: cs⟩ : String).length = cs.length + 1 := rfl
        omega
      rw [if_pos ⟨hlen, take3_append_png _⟩]

lemma expandToSquare_center_x (ex : GeoExtent) :
    (expandToSquare ex).xmin + (expandToSquare ex).xmax = ex.xmin + ex.xmax := by
  rcases lt_trichotomy ex.width ex.height with h | h | h
  · rw [expandToSquare_of_lt ex h]
    simp
  · rw [expandToSquare_of_eq ex h]
  · rw [expandToSquare_of_gt ex h]

lemma expandToSquare_center_y (ex : GeoExtent) :
    (expandToSquare ex).ymin + (expandToSquare ex).ymax = ex.ymin + ex.ymax := by
  rcases lt_trichotomy ex.width ex.height with h | h | h
  · rw [expandToSquare_of_lt ex h]
  · rw [expandToSquare_of_eq ex h]
  · rw [expandToSquare_of_gt ex h]
    simp

/-- C1 counterexample: for the concrete non-tiled adapter `exSrcExport`
and key `exKey`, the URL built by `createImage` is not the spec's
dynamic-export template — the code appends a further fragment after
`f=image` (source line 159), so the claim as stated is false. -/
theorem c1_counterexample :
    exSrcExport.map_service.tiled = false ∧
    exSrcExport.createImageURL exKey ≠ specExportURL exSrcExport exKey := by
  refine ⟨rfl, ?_⟩
  decide

/-- C1 (amended): for every non-tiled service and every tile key, the URL
built by `createImage` is exactly the spec's dynamic-export template
followed by `&.` and the normalized format. -/
theorem c1_amended_export_url (s : ArcGISSource) (key : TileKey)
    (h : s.map_service.tiled = false) :
    s.createImageURL key = specExportURL s key ++ "&" ++ "."
      ++ normalizeFormat s.map_service.tileInfo.format := by
  simp only [ArcGISSource.createImageURL, specExportURL, h]
  rfl

/-- C1 witness: the amended equation evaluated on the concrete non-tiled
adapter and key. -/
theorem c1_amended_export_url_witness :
    exSrcExport.createImageURL exKey = specExportURL exSrcExport exKey ++ "&" ++ "."
      ++ normalizeFormat exSrcExport.map_service.tileInfo.format :=
  c1_amended_export_url exSrcExport exKey rfl

/-- C2 counterexample: a concrete adapter whose metadata initialization
failed, together with a fetch collaborator that succeeds: `createImage`
returns that collaborator's image, not the "not available" result — the
code never guards on the failed initialization. -/
theorem c2_counterexample :
    exSrcFailed.map_service.inited = false ∧
    exSrcFailed.createImage exKey ⟨false⟩ (fun _ _ => some ⟨7⟩) = some ⟨7⟩ ∧
    exSrcFailed.createImage exKey ⟨false⟩ (fun _ _ => some ⟨7⟩) ≠ none := by
  refine ⟨rfl, rfl, ?_⟩
  decide

/-- C2 (amended): after a failed metadata initialization the adapter does
not guard on the failure; `createImage` still synthesizes a dynamic-export
URL (the failed-init descriptor defaults to non-tiled) and attempts the
fetch, returning exactly the fetch collaborator's result — the null
"not available" outcome arises precisely when that fetch fails. -/
theorem c2_amended_fetch_attempted (s : ArcGISSource) (key : TileKey)
    (progress : ProgressCallback) (fetch : String → ProgressCallback → Option Image)
    (h : s.map_service = MapService.failedInit) :
    s.createImage key progress fetch = fetch (s.createImageURL key) progress ∧
    (s.createImage key progress fetch = none ↔
      fetch (s.createImageURL key) progress = none) ∧
    ∃ rest, s.createImageURL key = s.url ++ "/export" ++ rest := by
  refine ⟨rfl, Iff.rfl, ?_⟩
  have htiled : s.map_service.tiled = false := by rw [h]; rfl
  refine ⟨"?bbox=" ++ fmt16 key.extent.xmin ++ "," ++ fmt16 key.extent.ymin ++ ","
    ++ fmt16 key.extent.xmax ++ "," ++ fmt16 key.extent.ymax ++ "&format="
    ++ normalizeFormat s.map_service.tileInfo.format ++ "&size=256,256"
    ++ "&transparent=true" ++ "&f=image" ++ "&" ++ "."
    ++ normalizeFormat s.map_service.tileInfo.format, ?_⟩
  simp only [ArcGISSource.createImageURL, htiled, Bool.false_eq_true, if_false,
    String.append_assoc]

/-- C2 witness: the amended statement evaluated on the concrete
failed-initialization adapter with a failing fetch collaborator. -/
theorem c2_amended_fetch_attempted_witness :
    exSrcFailed.createImage exKey ⟨false⟩ (fun _ _ => none) = none ∧
    ∃ rest, exSrcFailed.createImageURL exKey = exSrcFailed.url ++ "/export" ++ rest := by
  obtain ⟨h1, _, h3⟩ :=
    c2_amended_fetch_attempted exSrcFailed exKey ⟨false⟩ (fun _ _ => none) rfl
  exact ⟨h1, h3⟩

/-- C3: for a non-tiled service with a service-reported profile and no
configured override, whose extent is non-square, `initialize` produces a
profile built from the same SRS and the same level-0 tile counts over an
extent that is square, shares the original center, and is expanded
symmetrically along the shorter axis only. -/
theorem c3_nonsquare_expansion (s : ArcGISSource) (p : SvcProfile)
    (h1 : s.profile_str.isEmpty = true) (h2 : s.map_service.profile = some p)
    (h3 : s.map_service.tiled = false)
    (_hne : p.extent.width ≠ p.extent.height) :
    ∃ E : GeoExtent,
      s.initProfile = HostProfile.custom p.srs E p.tilesX p.tilesY ∧
      E.width = E.height ∧
      E.xmin + E.xmax = p.extent.xmin + p.extent.xmax ∧
      E.ymin + E.ymax = p.extent.ymin + p.extent.ymax ∧
      (p.extent.height < p.extent.width →
        E.xmin = p.extent.xmin ∧ E.xmax = p.extent.xmax ∧
        E.ymin < p.extent.ymin ∧
        p.extent.ymin - E.ymin = E.ymax - p.extent.ymax) ∧
      (p.extent.width < p.extent.height →
        E.ymin = p.extent.ymin ∧ E.ymax = p.extent.ymax ∧
        E.xmin < p.extent.xmin ∧
        p.extent.xmin - E.xmin = E.xmax - p.extent.xmax) := by
  refine ⟨expandToSquare p.extent, initProfile_nonTiled s p h1 h2 h3,
    expandToSquare_width_eq_height _, expandToSquare_center_x _,
    expandToSquare_center_y _, ?_, ?_⟩
  · intro h
    rw [expandToSquare_of_gt _ h]
    have hd : 0 < (p.extent.width - p.extent.height) / 2 := by
      simp only [GeoExtent.width, GeoExtent.height] at h ⊢
      linarith
    refine ⟨rfl, rfl, by simp; linarith, by simp⟩
  · intro h
    rw [expandToSquare_of_lt _ h]
    have hd : 0 < (p.extent.height - p.extent.width) / 2 := by
      simp only [GeoExtent.width, GeoExtent.height] at h ⊢
      linarith
    refine ⟨rfl, rfl, by simp; linarith, by simp⟩

/-- C3 witness: the theorem applied to the non-tiled world-extent
adapter, whose profile extent is 360 wide by 180 tall. -/
theorem c3_nonsquare_expansion_witness :
    ∃ E : GeoExtent,
      exSrcExport.initProfile = HostProfile.custom exProf.srs E exProf.tilesX exProf.tilesY ∧
      E.width = E.height ∧
      E.xmin + E.xmax = exProf.extent.xmin + exProf.extent.xmax ∧
      E.ymin + E.ymax = exProf.extent.ymin + exProf.extent.ymax ∧
      (exProf.extent.height < exProf.extent.width →
        E.xmin = exProf.extent.xmin ∧ E.xmax = exProf.extent.xmax ∧
        E.ymin < exProf.extent.ymin ∧
        exProf.extent.ymin - E.ymin = E.ymax - exProf.extent.ymax) ∧
      (exProf.extent.width < exProf.extent.height →
        E.ymin = exProf.extent.ymin ∧ E.ymax = exProf.extent.ymax ∧
        E.xmin < exProf.extent.xmin ∧
        exProf.extent.xmin - E.xmin = E.xmax - exProf.extent.xmax) :=
  c3_nonsquare_expansion exSrcExport exProf rfl rfl rfl
    (by norm_num [exProf, GeoExtent.width, GeoExtent.height])

/-- C4: for every tiled service, the URL is
`url/tile/level/row/column.format` with the row (`tile_y`) preceding the
column (`tile_x`); the format is the declared format lowercased, and any
lowercased format beginning with "png" is collapsed to exactly "png"; in
particular level 3, row 5, column 2 with declared format PNG24 yields
`.../tile/3/5/2.png`. -/
theorem c4_tiled_url :
    (∀ (s : ArcGISSource) (key : TileKey), s.map_service.tiled = true →
      s.createImageURL key = s.url ++ "/tile" ++ "/" ++ toString key.level ++ "/"
        ++ toString key.tile_y ++ "/" ++ toString key.tile_x ++ "."
        ++ normalizeFormat s.map_service.tileInfo.format) ∧
    (∀ f0 t : String, strLower f0 = "png" ++ t → normalizeFormat f0 = "png") ∧
    exSrcTiled.createImageURL exKeyTile = "http://server/rest/MapServer/tile/3/5/2.png" := by
  refine ⟨?_, normalizeFormat_of_png, ?_⟩
  · intro s key h
    simp only [ArcGISSource.createImageURL, h, if_true]
  · decide

/-- C4 witness: the general tiled-URL equation and the format
normalization evaluated on the concrete tiled adapter and on PNG24. -/
theorem c4_tiled_url_witness :
    exSrcTiled.map_service.tiled = true ∧
    exSrcTiled.createImageURL exKeyTile = exSrcTiled.url ++ "/tile" ++ "/"
      ++ toString exKeyTile.level ++ "/" ++ toString exKeyTile.tile_y ++ "/"
      ++ toString exKeyTile.tile_x ++ "."
      ++ normalizeFormat exSrcTiled.map_service.tileInfo.format ∧
    strLower ("PNG24") = "png" ++ "24" ∧
    normalizeFormat ("PNG24") = "png" :=
  ⟨rfl, c4_tiled_url.1 exSrcTiled exKeyTile rfl, by decide,
    c4_tiled_url.2.1 ("PNG24") ("24") (by decide)⟩

/-- C5: the square-expansion adjustment is the identity on square extents
and is idempotent on all extents; accordingly `initialize` passes a
square service extent through unchanged. -/
theorem c5_square_noop :
    (∀ ex : GeoExtent, ex.width = ex.height → expandToSquare ex = ex) ∧
    (∀ ex : GeoExtent, expandToSquare (expandToSquare ex) = expandToSquare ex) ∧
    (∀ (s : ArcGISSource) (p : SvcProfile), s.profile_str.isEmpty = true →
      s.map_service.profile = some p → s.map_service.tiled = false →
      p.extent.width = p.extent.height →
      s.initProfile = HostProfile.custom p.srs p.extent p.tilesX p.tilesY) := by
  refine ⟨expandToSquare_of_eq, expandToSquare_idem, ?_⟩
  intro s p h1 h2 h3 h4
  rw [initProfile_nonTiled s p h1 h2 h3, expandToSquare_of_eq _ h4]

/-- C5 witness: the no-op and idempotence facts evaluated on the concrete
square extent (0, 0, 10, 10) and the square-service adapter. -/
theorem c5_square_noop_witness :
    expandToSquare ⟨0, 0, 10, 10⟩ = ⟨0, 0, 10, 10⟩ ∧
    expandToSquare (expandToSquare ⟨0, 0, 10, 10⟩) = expandToSquare ⟨0, 0, 10, 10⟩ ∧
    exSrcSquare.initProfile = HostProfile.custom "EPSG:4326" ⟨0, 0, 10, 10⟩ 1 1 :=
  ⟨c5_square_noop.1 _ (by norm_num [GeoExtent.width, GeoExtent.height]),
    c5_square_noop.2.1 _,
    c5_square_noop.2.2 exSrcSquare exProfSquare rfl rfl rfl
      (by norm_num [exProfSquare, GeoExtent.width, GeoExtent.height])⟩

/-- C6: `initialize` resolves the profile by strict priority — a
configured non-empty profile string wins; otherwise a service-reported
profile is used (square-expanded exactly when the service is not tiled);
otherwise the host's global geodetic profile. -/
theorem c6_profile_priority :
    (∀ s : ArcGISSource, s.profile_str.isEmpty = false →
      s.initProfile = HostProfile.named s.profile_str) ∧
    (∀ (s : ArcGISSource) (p : SvcProfile), s.profile_str.isEmpty = true →
      s.map_service.profile = some p →
      s.initProfile = HostProfile.custom p.srs
        (if s.map_service.tiled then p.extent else expandToSquare p.extent)
        p.tilesX p.tilesY) ∧
    (∀ s : ArcGISSource, s.profile_str.isEmpty = true →
      s.map_service.profile = none →
      s.initProfile = HostProfile.globalGeodetic) := by
  refine ⟨?_, ?_, ?_⟩
  · intro s h
    simp [ArcGISSource.initProfile, h]
  · intro s p h1 h2
    cases htl : s.map_service.tiled with
    | false => simp [ArcGISSource.initProfile, h1, h2, htl]
    | true => simp [ArcGISSource.initProfile, h1, h2, htl]
  · intro s h1 h2
    simp [ArcGISSource.initProfile, h1, h2]

/-- C6 witness: the three priority cases evaluated on the override
adapter, the non-tiled service adapter, and the failed-initialization
adapter (which has no service profile). -/
theorem c6_profile_priority_witness :
    exSrcNamed.initProfile = HostProfile.named exSrcNamed.profile_str ∧
    exSrcExport.initProfile = HostProfile.custom exProf.srs
      (if exSrcExport.map_service.tiled then exProf.extent
        else expandToSquare exProf.extent) exProf.tilesX exProf.tilesY ∧
    exSrcFailed.initProfile = HostProfile.globalGeodetic :=
  ⟨c6_profile_priority.1 exSrcNamed rfl,
    c6_profile_priority.2.1 exSrcExport exProf rfl rfl,
    c6_profile_priority.2.2 exSrcFailed rfl rfl⟩

/-- C7: on the concrete non-tiled adapter with tile extent
(-10, -5, 10, 5), the synthesized export URL contains the substring
`bbox=-10,-5,10,5`; and in general the 16-significant-digit decimal that
the `setprecision(16)` serialization denotes differs from each exact
coordinate by at most half a unit in the 16th significant digit (relative
error at most `10 ^ (-15) / 2`). -/
theorem c7_bbox_precision :
    (∃ pre post : String, exSrcExport.createImageURL exKeyBbox
      = pre ++ "bbox=-10,-5,10,5" ++ post) ∧
    ∀ q : ℚ, q ≠ 0 → |fmt16Val q - q| ≤ |q| * ((10 : ℚ) ^ (-15 : ℤ) / 2) := by
  constructor
  · refine ⟨"http://server/rest/MapServer/export?",
      "&format=png&size=256,256&transparent=true&f=image&.png", ?_⟩
    decide
  · exact fmt16Val_error

/-- C7 witness: the serialization error bound evaluated at the nonzero
coordinate 37. -/
theorem c7_bbox_precision_witness :
    (37 : ℚ) ≠ 0 ∧ |fmt16Val 37 - 37| ≤ |(37 : ℚ)| * ((10 : ℚ) ^ (-15 : ℤ) / 2) :=
  ⟨by decide, c7_bbox_precision.2 37 (by decide)⟩

/-- C8: `createHeightField` returns the "not available" result for every
adapter, tile key and progress handle. -/
theorem c8_heightfield_unavailable :
    ∀ (s : ArcGISSource) (key : TileKey) (progress : ProgressCallback),
      s.createHeightField key progress = none :=
  fun _ _ _ => rfl

/-- C9: no per-request operation mutates the adapter: in state-passing
form, `createImage`, `createHeightField`, `getPixelsPerTile` and
`getExtension` all return the adapter unchanged, with the same results as
their pure forms. -/
theorem c9_requests_leave_state :
    ∀ (s : ArcGISSource) (key : TileKey) (progress : ProgressCallback)
      (fetch : String → ProgressCallback → Option Image),
      (s.createImageM key progress fetch).2 = s ∧
      (s.createHeightFieldM key progress).2 = s ∧
      s.getPixelsPerTileM.2 = s ∧
      s.getExtensionM.2 = s ∧
      (s.createImageM key progress fetch).1 = s.createImage key progress fetch ∧
      (s.createHeightFieldM key progress).1 = s.createHeightField key progress ∧
      s.getPixelsPerTileM.1 = s.getPixelsPerTile ∧
      s.getExtensionM.1 = s.getExtension :=
  fun _ _ _ _ => ⟨rfl, rfl, rfl, rfl, rfl, rfl, rfl, rfl⟩

/-- C10: the constructor defaults `_format` to "png" and nothing ever
overwrites it, so `getExtension` returns "png" for every constructed
adapter regardless of the service metadata; on a JPEG-declaring tiled
service the published extension ("png") disagrees with the format used in
the synthesized URL (".jpeg"). -/
theorem c10_extension_always_png :
    (∀ (options : Option PluginOptions) (svcInit : String → MapService),
      (ArcGISSource.construct options svcInit).getExtension = "png") ∧
    (ArcGISSource.construct (some exOpts) (fun _ => exSvcJpeg)).getExtension = "png" ∧
    (ArcGISSource.construct (some exOpts) (fun _ => exSvcJpeg)).createImageURL exKeyTile
      = "http://server/rest/MapServer/tile/3/5/2.jpeg" := by
  refine ⟨fun _ _ => rfl, rfl, ?_⟩
  decide
